import Mathlib

/-!
# webhook-server: the request handler `handleWebhook`

A shallow embedding of `src/webhook-server.go`.

The handler is sequential code whose only effects are calls into the Go
standard library (`encoding/json`, `log`, `net/http`, `os`, `os/exec`).
Each such call is recorded, in program order, as an `Event` of a trace;
the results of the calls that read the outside world (JSON decoding, the
file-system stat, the subprocess) are supplied by an `Env`.

* Go strings carried by a decoded payload are valid UTF-8, so they are
  modelled by `String`; the captured subprocess output (`[]byte`, printed
  with `%s`) is modelled by `String` as well.
* `http.Error(w, msg, code)` writes the status `code` and then the line
  `msg ++ "\n"`; the two headers it sets are not modelled.
* `log.Printf` emits one log entry per call; the entry is the formatted
  message (time stamp and final newline are not modelled).
-/

namespace WebhookServer

/-! ## Data model -/

/-- The struct `GitHubPayload` (lines 13-18); `RepositoryName` is the field
`Repository.Name`. -/
structure GitHubPayload where
  Ref : String
  RepositoryName : String
  deriving DecidableEq, Repr

/-- The part of `*http.Request` that the handler reads. -/
structure Request where
  Method : String
  Body : String
  deriving DecidableEq, Repr

/-- Outcome of `os.Stat(path)`: no error, an error for which
`os.IsNotExist` holds, or any other error. -/
inductive StatResult where
  | ok
  | notExist
  | otherError (msg : String)
  deriving DecidableEq, Repr

/-- Outcome of `cmd.CombinedOutput()`: the captured combined output and the
error (`none` is `nil`: the process started and exited with status 0). -/
structure ExecResult where
  output : String
  err : Option String
  deriving DecidableEq, Repr

/-- The outside world as seen by one call of the handler. -/
structure Env where
  /-- Result of `json.NewDecoder(r.Body).Decode(&payload)`: the error text or
  the decoded payload. -/
  decode : String → Except String GitHubPayload
  /-- Result of `os.Stat`. -/
  stat : String → StatResult
  /-- Result of `exec.Command(name, args...).CombinedOutput()`. -/
  combinedOutput : String → List String → ExecResult

/-- One library call made by the handler. -/
inductive Event where
  /-- The call `json.NewDecoder(r.Body).Decode` (line 34). -/
  | decodeBody (body : String)
  /-- A call of `log.Printf` with the formatted message. -/
  | logPrintf (entry : String)
  /-- A call of `w.WriteHeader(code)`. -/
  | writeHeader (code : Nat)
  /-- Bytes written to the response body. -/
  | write (data : String)
  /-- The map access `deployScripts[key]` (line 54). -/
  | registryLookup (key : String)
  /-- The call `os.Stat(path)` (line 62). -/
  | osStat (path : String)
  /-- The command built by `exec.Command` and run by `CombinedOutput`
  (lines 70-71). -/
  | execCommand (name : String) (args : List String)
  deriving DecidableEq, Repr

/-! ## Constants and library functions -/

def MethodPost : String := "POST"
def StatusOK : Nat := 200
def StatusBadRequest : Nat := 400
def StatusNotFound : Nat := 404
def StatusMethodNotAllowed : Nat := 405
def StatusInternalServerError : Nat := 500

/-- The interpreter named on line 70. -/
def bashPath : String := "/run/current-system/profile/bin/bash"

/-- The map `deployScripts` (lines 21-25), as an association list. -/
def deployScripts : List (String × String) :=
  [ ("0xhenrique-blog", "/srv/0xhenrique-blog/deploy.sh"),
    ("agora", "/srv/agora/deploy.sh"),
    ("agora-backend", "/srv/agora-backend/deploy.sh") ]

/-- Go `strings.TrimPrefix(s, pre)`: `s` without the leading `pre`, or `s`
itself when `s` does not start with `pre`. -/
def TrimPrefix (s pre : String) : String :=
  if pre.data.isPrefixOf s.data then String.mk (s.data.drop pre.data.length) else s

/-- Go `os.IsNotExist(err)` applied to the error of `os.Stat`. -/
def IsNotExist : StatResult → Bool
  | .notExist => true
  | _ => false

/-- Go `http.Error(w, msg, code)`. -/
def httpError (msg : String) (code : Nat) : List Event :=
  [.writeHeader code, .write (msg ++ "\n")]

/-! ## The handler -/

/-- The function `handleWebhook` (lines 27-82): the trace of library calls
it makes for request `r` in environment `env`. -/
def handleWebhook (env : Env) (r : Request) : List Event :=
  if r.Method ≠ MethodPost then
    httpError "Only POST allowed" StatusMethodNotAllowed
  else
    .decodeBody r.Body ::
    match env.decode r.Body with
    | .error err =>
      .logPrintf ("Failed to decode payload: " ++ err) ::
      httpError "Invalid payload" StatusBadRequest
    | .ok payload =>
      let branch := TrimPrefix payload.Ref "refs/heads/"
      let repoName := payload.RepositoryName
      .logPrintf ("Received webhook: repo=" ++ repoName ++ ", branch=" ++ branch) ::
      if branch ≠ "master" then
        [.writeHeader StatusOK, .write ("Ignoring branch: " ++ branch ++ "\n")]
      else
        .registryLookup repoName ::
        match deployScripts.lookup repoName with
        | none =>
          .logPrintf ("No deploy script configured for repo: " ++ repoName) ::
          httpError "Unknown repository" StatusNotFound
        | some deployScript =>
          .osStat deployScript ::
          if IsNotExist (env.stat deployScript) then
            .logPrintf ("Deploy script not found: " ++ deployScript) ::
            httpError "Deploy script not found" StatusInternalServerError
          else
            .logPrintf ("Executing deploy script: " ++ deployScript) ::
            .execCommand bashPath [deployScript] ::
            let res := env.combinedOutput bashPath [deployScript]
            match res.err with
            | some err =>
              .logPrintf ("Deploy failed for " ++ repoName ++ ": " ++ err
                ++ "\nOutput: " ++ res.output) ::
              httpError ("Deploy failed: " ++ res.output) StatusInternalServerError
            | none =>
              [.logPrintf ("Deploy successful for " ++ repoName
                ++ "\nOutput: " ++ res.output),
               .writeHeader StatusOK,
               .write ("Deploy successful for " ++ repoName ++ "\n")]

/-! ## Observations on a trace -/

/-- The status codes written, in order. -/
def statusCodes : List Event → List Nat
  | [] => []
  | .writeHeader c :: es => c :: statusCodes es
  | _ :: es => statusCodes es

/-- The response body: all writes, concatenated. -/
def responseBody : List Event → String
  | [] => ""
  | .write d :: es => d ++ responseBody es
  | _ :: es => responseBody es

/-- The log entries emitted, in order. -/
def logEntries : List Event → List String
  | [] => []
  | .logPrintf l :: es => l :: logEntries es
  | _ :: es => logEntries es

/-- The commands run, in order: program name and argument list. -/
def commands : List Event → List (String × List String)
  | [] => []
  | .execCommand n a :: es => (n, a) :: commands es
  | _ :: es => commands es

/-- The bodies handed to the JSON decoder. -/
def decodeCalls : List Event → List String
  | [] => []
  | .decodeBody b :: es => b :: decodeCalls es
  | _ :: es => decodeCalls es

/-- The keys looked up in the registry. -/
def lookupCalls : List Event → List String
  | [] => []
  | .registryLookup k :: es => k :: lookupCalls es
  | _ :: es => lookupCalls es

/-- The paths handed to `os.Stat`. -/
def statCalls : List Event → List String
  | [] => []
  | .osStat p :: es => p :: statCalls es
  | _ :: es => statCalls es

/-! ## Sample requests and environments -/

def bodyMasterAgora : String :=
  "\x7b\"ref\":\"refs/heads/master\",\"repository\":\x7b\"name\":\"agora\"\x7d\x7d"

def bodyFeatureAgora : String :=
  "\x7b\"ref\":\"refs/heads/feature-x\",\"repository\":\x7b\"name\":\"agora\"\x7d\x7d"

def bodyMasterNoRepo : String :=
  "\x7b\"ref\":\"refs/heads/master\"\x7d"

def bodyFeatureNope : String :=
  "\x7b\"ref\":\"refs/heads/feature-x\",\"repository\":\x7b\"name\":\"nope\"\x7d\x7d"

def bodyDoubleAgora : String :=
  "\x7b\"ref\":\"refs/heads/refs/heads/master\",\"repository\":\x7b\"name\":\"agora\"\x7d\x7d"

/-- A decoder that knows the sample bodies above and rejects every other
body. -/
def sampleDecode (body : String) : Except String GitHubPayload :=
  if body = bodyMasterAgora then .ok ⟨"refs/heads/master", "agora"⟩
  else if body = bodyFeatureAgora then .ok ⟨"refs/heads/feature-x", "agora"⟩
  else if body = bodyMasterNoRepo then .ok ⟨"refs/heads/master", ""⟩
  else if body = bodyFeatureNope then .ok ⟨"refs/heads/feature-x", "nope"⟩
  else if body = bodyDoubleAgora then .ok ⟨"refs/heads/refs/heads/master", "agora"⟩
  else .error "invalid character"

/-- Every script exists and exits 0 printing OK. -/
def envOK : Env :=
  ⟨sampleDecode, fun _ => .ok, fun _ _ => ⟨"OK", none⟩⟩

/-- Every script exists and exits 1 printing build failed. -/
def envFail : Env :=
  ⟨sampleDecode, fun _ => .ok, fun _ _ => ⟨"build failed", some "exit status 1"⟩⟩

/-- No script exists on disk. -/
def envMissing : Env :=
  ⟨sampleDecode, fun _ => .notExist, fun _ _ => ⟨"", none⟩⟩

/-- The stat fails for a reason other than absence (say, permission
denied on a parent directory); the script then runs and exits 0. -/
def envStatDenied : Env :=
  ⟨sampleDecode, fun _ => .otherError "permission denied", fun _ _ => ⟨"OK", none⟩⟩

/-! ## Facts about the library functions and the registry -/

theorem TrimPrefix_append (pre b : String) : TrimPrefix (pre ++ b) pre = b := by
  unfold TrimPrefix
  have h : pre.data.isPrefixOf (pre ++ b).data = true := by
    rw [List.isPrefixOf_iff_prefix, String.data_append]
    exact List.prefix_append _ _
  rw [if_pos h, String.data_append, List.drop_left]

theorem TrimPrefix_of_not_prefix (s pre : String)
    (h : pre.data.isPrefixOf s.data = false) : TrimPrefix s pre = s := by
  unfold TrimPrefix
  simp [h]

theorem TrimPrefix_eq_master_iff (ref : String) :
    TrimPrefix ref "refs/heads/" = "master" ↔
      ref = "master" ∨ ref = "refs/heads/master" := by
  constructor
  · intro h
    unfold TrimPrefix at h
    split at h
    · rename_i hp
      right
      rw [List.isPrefixOf_iff_prefix] at hp
      obtain ⟨t, ht⟩ := hp
      have hd : ref.data.drop ("refs/heads/" : String).data.length = t := by
        rw [← ht, List.drop_left]
      rw [hd] at h
      have ht2 : t = ("master" : String).data := by rw [← h]
      apply String.ext
      rw [← ht, ht2]
      rfl
    · exact Or.inl h
  · rintro (h | h)
    · subst h; decide
    · subst h; decide

theorem lookup_eq_none_iff (name : String) :
    deployScripts.lookup name = none ↔
      name ≠ "0xhenrique-blog" ∧ name ≠ "agora" ∧ name ≠ "agora-backend" := by
  constructor
  · intro h
    refine ⟨?_, ?_, ?_⟩ <;> (intro hn; subst hn; revert h; decide)
  · rintro ⟨h1, h2, h3⟩
    have e1 : (name == "0xhenrique-blog") = false := beq_eq_false_iff_ne.mpr h1
    have e2 : (name == "agora") = false := beq_eq_false_iff_ne.mpr h2
    have e3 : (name == "agora-backend") = false := beq_eq_false_iff_ne.mpr h3
    simp only [deployScripts, List.lookup, e1, e2, e3]

theorem lookup_eq_some_iff (name script : String) :
    deployScripts.lookup name = some script ↔
      (name = "0xhenrique-blog" ∧ script = "/srv/0xhenrique-blog/deploy.sh") ∨
      (name = "agora" ∧ script = "/srv/agora/deploy.sh") ∨
      (name = "agora-backend" ∧ script = "/srv/agora-backend/deploy.sh") := by
  by_cases h1 : name = "0xhenrique-blog"
  · subst h1
    have : deployScripts.lookup "0xhenrique-blog" = some "/srv/0xhenrique-blog/deploy.sh" := by
      decide
    rw [this]
    constructor
    · intro h; left; exact ⟨rfl, (Option.some.inj h).symm⟩
    · rintro (⟨-, h⟩ | ⟨h, -⟩ | ⟨h, -⟩)
      · rw [h]
      · exact absurd h (by decide)
      · exact absurd h (by decide)
  by_cases h2 : name = "agora"
  · subst h2
    have : deployScripts.lookup "agora" = some "/srv/agora/deploy.sh" := by decide
    rw [this]
    constructor
    · intro h; right; left; exact ⟨rfl, (Option.some.inj h).symm⟩
    · rintro (⟨h, -⟩ | ⟨-, h⟩ | ⟨h, -⟩)
      · exact absurd h (by decide)
      · rw [h]
      · exact absurd h (by decide)
  by_cases h3 : name = "agora-backend"
  · subst h3
    have : deployScripts.lookup "agora-backend" = some "/srv/agora-backend/deploy.sh" := by
      decide
    rw [this]
    constructor
    · intro h; right; right; exact ⟨rfl, (Option.some.inj h).symm⟩
    · rintro (⟨h, -⟩ | ⟨h, -⟩ | ⟨-, h⟩)
      · exact absurd h (by decide)
      · exact absurd h (by decide)
      · rw [h]
  · rw [(lookup_eq_none_iff name).2 ⟨h1, h2, h3⟩]
    simp [h1, h2, h3]

theorem lookup_eq_none_of_not_key (name : String)
    (h : name ∉ deployScripts.map Prod.fst) : deployScripts.lookup name = none := by
  rw [lookup_eq_none_iff]
  refine ⟨?_, ?_, ?_⟩ <;> (intro hn; subst hn; exact h (by decide))

/-! ## The trace of each path -/

theorem trace_method_rejected (env : Env) (r : Request) (hm : r.Method ≠ "POST") :
    handleWebhook env r = [.writeHeader 405, .write "Only POST allowed\n"] := by
  unfold handleWebhook
  simp [MethodPost, hm, httpError, StatusMethodNotAllowed]

theorem trace_decode_failure (env : Env) (r : Request) (e : String)
    (hm : r.Method = "POST") (hd : env.decode r.Body = .error e) :
    handleWebhook env r =
      [.decodeBody r.Body, .logPrintf ("Failed to decode payload: " ++ e),
       .writeHeader 400, .write "Invalid payload\n"] := by
  unfold handleWebhook
  simp [MethodPost, hm, hd, httpError, StatusBadRequest]

theorem trace_branch_ignored (env : Env) (r : Request) (p : GitHubPayload)
    (hm : r.Method = "POST") (hd : env.decode r.Body = .ok p)
    (hb : TrimPrefix p.Ref "refs/heads/" ≠ "master") :
    handleWebhook env r =
      [.decodeBody r.Body,
       .logPrintf ("Received webhook: repo=" ++ p.RepositoryName ++ ", branch="
         ++ TrimPrefix p.Ref "refs/heads/"),
       .writeHeader 200,
       .write ("Ignoring branch: " ++ TrimPrefix p.Ref "refs/heads/" ++ "\n")] := by
  unfold handleWebhook
  simp [MethodPost, hm, hd, hb, StatusOK]

theorem trace_unknown_repository (env : Env) (r : Request) (p : GitHubPayload)
    (hm : r.Method = "POST") (hd : env.decode r.Body = .ok p)
    (hb : TrimPrefix p.Ref "refs/heads/" = "master")
    (hl : deployScripts.lookup p.RepositoryName = none) :
    handleWebhook env r =
      [.decodeBody r.Body,
       .logPrintf ("Received webhook: repo=" ++ p.RepositoryName ++ ", branch=" ++ "master"),
       .registryLookup p.RepositoryName,
       .logPrintf ("No deploy script configured for repo: " ++ p.RepositoryName),
       .writeHeader 404, .write "Unknown repository\n"] := by
  unfold handleWebhook
  simp [MethodPost, hm, hd, hb, hl, httpError, StatusNotFound]

theorem trace_script_missing (env : Env) (r : Request) (p : GitHubPayload)
    (script : String)
    (hm : r.Method = "POST") (hd : env.decode r.Body = .ok p)
    (hb : TrimPrefix p.Ref "refs/heads/" = "master")
    (hl : deployScripts.lookup p.RepositoryName = some script)
    (hs : IsNotExist (env.stat script) = true) :
    handleWebhook env r =
      [.decodeBody r.Body,
       .logPrintf ("Received webhook: repo=" ++ p.RepositoryName ++ ", branch=" ++ "master"),
       .registryLookup p.RepositoryName,
       .osStat script,
       .logPrintf ("Deploy script not found: " ++ script),
       .writeHeader 500, .write "Deploy script not found\n"] := by
  unfold handleWebhook
  simp [MethodPost, hm, hd, hb, hl, hs, httpError, StatusInternalServerError]

theorem trace_deploy_failed (env : Env) (r : Request) (p : GitHubPayload)
    (script e : String)
    (hm : r.Method = "POST") (hd : env.decode r.Body = .ok p)
    (hb : TrimPrefix p.Ref "refs/heads/" = "master")
    (hl : deployScripts.lookup p.RepositoryName = some script)
    (hs : IsNotExist (env.stat script) = false)
    (he : (env.combinedOutput bashPath [script]).err = some e) :
    handleWebhook env r =
      [.decodeBody r.Body,
       .logPrintf ("Received webhook: repo=" ++ p.RepositoryName ++ ", branch=" ++ "master"),
       .registryLookup p.RepositoryName,
       .osStat script,
       .logPrintf ("Executing deploy script: " ++ script),
       .execCommand bashPath [script],
       .logPrintf ("Deploy failed for " ++ p.RepositoryName ++ ": " ++ e
         ++ "\nOutput: " ++ (env.combinedOutput bashPath [script]).output),
       .writeHeader 500,
       .write ("Deploy failed: " ++ (env.combinedOutput bashPath [script]).output ++ "\n")] := by
  unfold handleWebhook
  simp [MethodPost, hm, hd, hb, hl, hs, he, httpError, StatusInternalServerError]

theorem trace_deploy_succeeded (env : Env) (r : Request) (p : GitHubPayload)
    (script : String)
    (hm : r.Method = "POST") (hd : env.decode r.Body = .ok p)
    (hb : TrimPrefix p.Ref "refs/heads/" = "master")
    (hl : deployScripts.lookup p.RepositoryName = some script)
    (hs : IsNotExist (env.stat script) = false)
    (he : (env.combinedOutput bashPath [script]).err = none) :
    handleWebhook env r =
      [.decodeBody r.Body,
       .logPrintf ("Received webhook: repo=" ++ p.RepositoryName ++ ", branch=" ++ "master"),
       .registryLookup p.RepositoryName,
       .osStat script,
       .logPrintf ("Executing deploy script: " ++ script),
       .execCommand bashPath [script],
       .logPrintf ("Deploy successful for " ++ p.RepositoryName
         ++ "\nOutput: " ++ (env.combinedOutput bashPath [script]).output),
       .writeHeader 200,
       .write ("Deploy successful for " ++ p.RepositoryName ++ "\n")] := by
  unfold handleWebhook
  simp [MethodPost, hm, hd, hb, hl, hs, he, StatusOK]

/-! ## Claims -/

/-- C1: a request whose method is not POST is answered with status 405 and
the message "Only POST allowed"; the body is never handed to the decoder, the
registry is not consulted, no path is statted and no command is run. -/
theorem C1_method_not_post_rejected (env : Env) (r : Request)
    (hm : r.Method ≠ "POST") :
    statusCodes (handleWebhook env r) = [405] ∧
    responseBody (handleWebhook env r) = "Only POST allowed\n" ∧
    decodeCalls (handleWebhook env r) = [] ∧
    lookupCalls (handleWebhook env r) = [] ∧
    statCalls (handleWebhook env r) = [] ∧
    commands (handleWebhook env r) = [] := by
  rw [trace_method_rejected env r hm]
  refine ⟨rfl, ?_, rfl, rfl, rfl, rfl⟩
  decide

theorem C1_method_not_post_rejected_witness :
    (⟨"GET", bodyMasterAgora⟩ : Request).Method ≠ "POST" ∧
    statusCodes (handleWebhook envOK ⟨"GET", bodyMasterAgora⟩) = [405] ∧
    responseBody (handleWebhook envOK ⟨"GET", bodyMasterAgora⟩) = "Only POST allowed\n" ∧
    decodeCalls (handleWebhook envOK ⟨"GET", bodyMasterAgora⟩) = [] ∧
    lookupCalls (handleWebhook envOK ⟨"GET", bodyMasterAgora⟩) = [] ∧
    statCalls (handleWebhook envOK ⟨"GET", bodyMasterAgora⟩) = [] ∧
    commands (handleWebhook envOK ⟨"GET", bodyMasterAgora⟩) = [] :=
  ⟨by decide, C1_method_not_post_rejected envOK ⟨"GET", bodyMasterAgora⟩ (by decide)⟩

/-- C2: a POST request whose body the decoder rejects is answered with
status 400 and the message "Invalid payload"; the registry is not consulted,
no path is statted and no command is run. -/
theorem C2_undecodable_body_rejected (env : Env) (r : Request) (e : String)
    (hm : r.Method = "POST") (hd : env.decode r.Body = .error e) :
    statusCodes (handleWebhook env r) = [400] ∧
    responseBody (handleWebhook env r) = "Invalid payload\n" ∧
    lookupCalls (handleWebhook env r) = [] ∧
    statCalls (handleWebhook env r) = [] ∧
    commands (handleWebhook env r) = [] := by
  rw [trace_decode_failure env r e hm hd]
  refine ⟨rfl, ?_, rfl, rfl, rfl⟩
  simp [responseBody]

theorem C2_undecodable_body_rejected_witness :
    (⟨"POST", "not json"⟩ : Request).Method = "POST" ∧
    envOK.decode (⟨"POST", "not json"⟩ : Request).Body = .error "invalid character" ∧
    statusCodes (handleWebhook envOK ⟨"POST", "not json"⟩) = [400] ∧
    responseBody (handleWebhook envOK ⟨"POST", "not json"⟩) = "Invalid payload\n" ∧
    lookupCalls (handleWebhook envOK ⟨"POST", "not json"⟩) = [] ∧
    statCalls (handleWebhook envOK ⟨"POST", "not json"⟩) = [] ∧
    commands (handleWebhook envOK ⟨"POST", "not json"⟩) = [] :=
  ⟨rfl, rfl,
    C2_undecodable_body_rejected envOK ⟨"POST", "not json"⟩ "invalid character" rfl rfl⟩

/-- C3: a POST request with a decodable payload whose derived branch (the
ref with one leading "refs/heads/" removed, the ref itself when it has no
such start) is not "master" is answered with status 200 and the body
"Ignoring branch: <branch>\n"; no command is run, whatever the repository
name is. -/
theorem C3_other_branch_ignored (env : Env) (r : Request) (p : GitHubPayload)
    (hm : r.Method = "POST") (hd : env.decode r.Body = .ok p)
    (hb : TrimPrefix p.Ref "refs/heads/" ≠ "master") :
    statusCodes (handleWebhook env r) = [200] ∧
    responseBody (handleWebhook env r)
      = "Ignoring branch: " ++ TrimPrefix p.Ref "refs/heads/" ++ "\n" ∧
    commands (handleWebhook env r) = [] ∧
    (∀ b : String, p.Ref = "refs/heads/" ++ b → TrimPrefix p.Ref "refs/heads/" = b) ∧
    (("refs/heads/" : String).data.isPrefixOf p.Ref.data = false →
      TrimPrefix p.Ref "refs/heads/" = p.Ref) := by
  rw [trace_branch_ignored env r p hm hd hb]
  refine ⟨rfl, ?_, rfl, ?_, ?_⟩
  · simp [responseBody]
  · intro b hbr
    rw [hbr, TrimPrefix_append]
  · exact TrimPrefix_of_not_prefix _ _

theorem C3_other_branch_ignored_witness :
    (⟨"POST", bodyFeatureAgora⟩ : Request).Method = "POST" ∧
    envOK.decode (⟨"POST", bodyFeatureAgora⟩ : Request).Body
      = .ok ⟨"refs/heads/feature-x", "agora"⟩ ∧
    TrimPrefix "refs/heads/feature-x" "refs/heads/" ≠ "master" ∧
    statusCodes (handleWebhook envOK ⟨"POST", bodyFeatureAgora⟩) = [200] ∧
    responseBody (handleWebhook envOK ⟨"POST", bodyFeatureAgora⟩)
      = "Ignoring branch: feature-x\n" ∧
    commands (handleWebhook envOK ⟨"POST", bodyFeatureAgora⟩) = [] :=
  have h := C3_other_branch_ignored envOK ⟨"POST", bodyFeatureAgora⟩
    ⟨"refs/heads/feature-x", "agora"⟩ rfl rfl (by decide)
  ⟨rfl, rfl, by decide, h.1, h.2.1.trans (by decide), h.2.2.1⟩

/-- C4, as stated, fails: a push to branch feature-x of the unregistered
repository "nope" is answered with status 200, not 404. -/
theorem C4_unknown_repository_other_branch_counterexample :
    (⟨"POST", bodyFeatureNope⟩ : Request).Method = "POST" ∧
    envOK.decode bodyFeatureNope = .ok ⟨"refs/heads/feature-x", "nope"⟩ ∧
    "nope" ∉ deployScripts.map Prod.fst ∧
    statusCodes (handleWebhook envOK ⟨"POST", bodyFeatureNope⟩) = [200] ∧
    responseBody (handleWebhook envOK ⟨"POST", bodyFeatureNope⟩)
      = "Ignoring branch: feature-x\n" := by
  refine ⟨rfl, rfl, ?_, ?_, ?_⟩ <;> decide

/-- C4, amended: a POST request with a decodable payload whose repository
name is not a key of the registry is answered with status 404 when the derived
branch is "master", and with status 200 for every other branch. -/
theorem C4_unknown_repository_status (env : Env) (r : Request) (p : GitHubPayload)
    (hm : r.Method = "POST") (hd : env.decode r.Body = .ok p)
    (hk : p.RepositoryName ∉ deployScripts.map Prod.fst) :
    statusCodes (handleWebhook env r)
      = [if TrimPrefix p.Ref "refs/heads/" = "master" then 404 else 200] := by
  by_cases hb : TrimPrefix p.Ref "refs/heads/" = "master"
  · rw [trace_unknown_repository env r p hm hd hb (lookup_eq_none_of_not_key _ hk), if_pos hb]
    rfl
  · rw [trace_branch_ignored env r p hm hd hb, if_neg hb]
    rfl

theorem C4_unknown_repository_status_witness :
    (⟨"POST", bodyMasterNoRepo⟩ : Request).Method = "POST" ∧
    envOK.decode (⟨"POST", bodyMasterNoRepo⟩ : Request).Body
      = .ok ⟨"refs/heads/master", ""⟩ ∧
    "" ∉ deployScripts.map Prod.fst ∧
    statusCodes (handleWebhook envOK ⟨"POST", bodyMasterNoRepo⟩) = [404] :=
  ⟨rfl, rfl, by decide,
    C4_unknown_repository_status envOK ⟨"POST", bodyMasterNoRepo⟩
      ⟨"refs/heads/master", ""⟩ rfl rfl (by decide)⟩

/-- C5: a POST request with a decodable payload whose derived branch is
"master" and whose repository name is none of "0xhenrique-blog", "agora",
"agora-backend" (the empty name included) is answered with status 404 and the
message "Unknown repository"; no path is statted and no command is run. -/
theorem C5_master_unknown_repository (env : Env) (r : Request) (p : GitHubPayload)
    (hm : r.Method = "POST") (hd : env.decode r.Body = .ok p)
    (hb : TrimPrefix p.Ref "refs/heads/" = "master")
    (h1 : p.RepositoryName ≠ "0xhenrique-blog") (h2 : p.RepositoryName ≠ "agora")
    (h3 : p.RepositoryName ≠ "agora-backend") :
    deployScripts.lookup p.RepositoryName = none ∧
    statusCodes (handleWebhook env r) = [404] ∧
    responseBody (handleWebhook env r) = "Unknown repository\n" ∧
    statCalls (handleWebhook env r) = [] ∧
    commands (handleWebhook env r) = [] := by
  have hl := (lookup_eq_none_iff p.RepositoryName).2 ⟨h1, h2, h3⟩
  rw [trace_unknown_repository env r p hm hd hb hl]
  refine ⟨hl, rfl, ?_, rfl, rfl⟩
  simp [responseBody]

theorem C5_master_unknown_repository_witness :
    (⟨"POST", bodyMasterNoRepo⟩ : Request).Method = "POST" ∧
    envOK.decode (⟨"POST", bodyMasterNoRepo⟩ : Request).Body
      = .ok ⟨"refs/heads/master", ""⟩ ∧
    TrimPrefix "refs/heads/master" "refs/heads/" = "master" ∧
    deployScripts.lookup "" = none ∧
    statusCodes (handleWebhook envOK ⟨"POST", bodyMasterNoRepo⟩) = [404] ∧
    responseBody (handleWebhook envOK ⟨"POST", bodyMasterNoRepo⟩) = "Unknown repository\n" ∧
    statCalls (handleWebhook envOK ⟨"POST", bodyMasterNoRepo⟩) = [] ∧
    commands (handleWebhook envOK ⟨"POST", bodyMasterNoRepo⟩) = [] :=
  ⟨rfl, rfl, by decide,
    C5_master_unknown_repository envOK ⟨"POST", bodyMasterNoRepo⟩
      ⟨"refs/heads/master", ""⟩ rfl rfl (by decide) (by decide) (by decide) (by decide)⟩

/-- C6: a POST request with ref "refs/heads/master" and a registered
repository name whose script path the stat reports as not existing is
answered with status 500 and the message "Deploy script not found"; no
command is run. -/
theorem C6_script_missing (env : Env) (r : Request) (p : GitHubPayload)
    (script : String)
    (hm : r.Method = "POST") (hd : env.decode r.Body = .ok p)
    (hr : p.Ref = "refs/heads/master")
    (hl : deployScripts.lookup p.RepositoryName = some script)
    (hs : env.stat script = .notExist) :
    statusCodes (handleWebhook env r) = [500] ∧
    responseBody (handleWebhook env r) = "Deploy script not found\n" ∧
    statCalls (handleWebhook env r) = [script] ∧
    commands (handleWebhook env r) = [] := by
  have hb : TrimPrefix p.Ref "refs/heads/" = "master" :=
    (TrimPrefix_eq_master_iff p.Ref).2 (Or.inr hr)
  have hs2 : IsNotExist (env.stat script) = true := by rw [hs]; rfl
  rw [trace_script_missing env r p script hm hd hb hl hs2]
  refine ⟨rfl, ?_, rfl, rfl⟩
  simp [responseBody]

theorem C6_script_missing_witness :
    (⟨"POST", bodyMasterAgora⟩ : Request).Method = "POST" ∧
    envMissing.decode (⟨"POST", bodyMasterAgora⟩ : Request).Body
      = .ok ⟨"refs/heads/master", "agora"⟩ ∧
    deployScripts.lookup "agora" = some "/srv/agora/deploy.sh" ∧
    envMissing.stat "/srv/agora/deploy.sh" = .notExist ∧
    statusCodes (handleWebhook envMissing ⟨"POST", bodyMasterAgora⟩) = [500] ∧
    responseBody (handleWebhook envMissing ⟨"POST", bodyMasterAgora⟩)
      = "Deploy script not found\n" ∧
    statCalls (handleWebhook envMissing ⟨"POST", bodyMasterAgora⟩)
      = ["/srv/agora/deploy.sh"] ∧
    commands (handleWebhook envMissing ⟨"POST", bodyMasterAgora⟩) = [] :=
  ⟨rfl, rfl, by decide, rfl,
    C6_script_missing envMissing ⟨"POST", bodyMasterAgora⟩
      ⟨"refs/heads/master", "agora"⟩ "/srv/agora/deploy.sh" rfl rfl rfl (by decide) rfl⟩

/-- C7: a POST request with derived branch "master" and a registered
repository name whose script the stat does not report as missing, and whose
run returns no error, is answered with status 200 and the body
"Deploy successful for <repo>\n", whatever the captured output is. -/
theorem C7_deploy_succeeded (env : Env) (r : Request) (p : GitHubPayload)
    (script : String)
    (hm : r.Method = "POST") (hd : env.decode r.Body = .ok p)
    (hb : TrimPrefix p.Ref "refs/heads/" = "master")
    (hl : deployScripts.lookup p.RepositoryName = some script)
    (hs : IsNotExist (env.stat script) = false)
    (he : (env.combinedOutput "/run/current-system/profile/bin/bash" [script]).err = none) :
    statusCodes (handleWebhook env r) = [200] ∧
    responseBody (handleWebhook env r)
      = "Deploy successful for " ++ p.RepositoryName ++ "\n" := by
  rw [trace_deploy_succeeded env r p script hm hd hb hl hs he]
  refine ⟨rfl, ?_⟩
  simp [responseBody]

theorem C7_deploy_succeeded_witness :
    (⟨"POST", bodyMasterAgora⟩ : Request).Method = "POST" ∧
    envOK.decode (⟨"POST", bodyMasterAgora⟩ : Request).Body
      = .ok ⟨"refs/heads/master", "agora"⟩ ∧
    TrimPrefix "refs/heads/master" "refs/heads/" = "master" ∧
    deployScripts.lookup "agora" = some "/srv/agora/deploy.sh" ∧
    IsNotExist (envOK.stat "/srv/agora/deploy.sh") = false ∧
    envOK.combinedOutput "/run/current-system/profile/bin/bash" ["/srv/agora/deploy.sh"]
      = ⟨"OK", none⟩ ∧
    statusCodes (handleWebhook envOK ⟨"POST", bodyMasterAgora⟩) = [200] ∧
    responseBody (handleWebhook envOK ⟨"POST", bodyMasterAgora⟩)
      = "Deploy successful for agora\n" :=
  have h := C7_deploy_succeeded envOK ⟨"POST", bodyMasterAgora⟩
    ⟨"refs/heads/master", "agora"⟩ "/srv/agora/deploy.sh" rfl rfl (by decide) (by decide)
    rfl rfl
  ⟨rfl, rfl, by decide, by decide, rfl, rfl, h.1, h.2.trans (by decide)⟩

/-- C8: a POST request with derived branch "master" and a registered
repository name whose script the stat does not report as missing, and whose
run returns an error, is answered with status 500 and the body
"Deploy failed: <output>\n": it starts with "Deploy failed: " and contains all
of the captured output. -/
theorem C8_deploy_failed (env : Env) (r : Request) (p : GitHubPayload)
    (script e : String)
    (hm : r.Method = "POST") (hd : env.decode r.Body = .ok p)
    (hb : TrimPrefix p.Ref "refs/heads/" = "master")
    (hl : deployScripts.lookup p.RepositoryName = some script)
    (hs : IsNotExist (env.stat script) = false)
    (he : (env.combinedOutput "/run/current-system/profile/bin/bash" [script]).err
      = some e) :
    statusCodes (handleWebhook env r) = [500] ∧
    responseBody (handleWebhook env r)
      = "Deploy failed: "
        ++ (env.combinedOutput "/run/current-system/profile/bin/bash" [script]).output
        ++ "\n" ∧
    ("Deploy failed: " : String).data <+: (responseBody (handleWebhook env r)).data ∧
    (env.combinedOutput "/run/current-system/profile/bin/bash" [script]).output.data
      <:+: (responseBody (handleWebhook env r)).data := by
  rw [trace_deploy_failed env r p script e hm hd hb hl hs he]
  have hbody : responseBody
      [.decodeBody r.Body,
       .logPrintf ("Received webhook: repo=" ++ p.RepositoryName ++ ", branch=" ++ "master"),
       .registryLookup p.RepositoryName,
       .osStat script,
       .logPrintf ("Executing deploy script: " ++ script),
       .execCommand bashPath [script],
       .logPrintf ("Deploy failed for " ++ p.RepositoryName ++ ": " ++ e
         ++ "\nOutput: " ++ (env.combinedOutput bashPath [script]).output),
       .writeHeader 500,
       .write ("Deploy failed: " ++ (env.combinedOutput bashPath [script]).output ++ "\n")]
      = "Deploy failed: " ++ (env.combinedOutput bashPath [script]).output ++ "\n" := by
    simp [responseBody]
  rw [hbody]
  refine ⟨rfl, rfl, ?_, ?_⟩
  · rw [String.data_append, String.data_append]
    exact ⟨_, (List.append_assoc _ _ _).symm⟩
  · rw [String.data_append, String.data_append]
    exact ⟨("Deploy failed: " : String).data, ("\n" : String).data, rfl⟩

theorem C8_deploy_failed_witness :
    (⟨"POST", bodyMasterAgora⟩ : Request).Method = "POST" ∧
    envFail.decode (⟨"POST", bodyMasterAgora⟩ : Request).Body
      = .ok ⟨"refs/heads/master", "agora"⟩ ∧
    TrimPrefix "refs/heads/master" "refs/heads/" = "master" ∧
    deployScripts.lookup "agora" = some "/srv/agora/deploy.sh" ∧
    IsNotExist (envFail.stat "/srv/agora/deploy.sh") = false ∧
    envFail.combinedOutput "/run/current-system/profile/bin/bash" ["/srv/agora/deploy.sh"]
      = ⟨"build failed", some "exit status 1"⟩ ∧
    statusCodes (handleWebhook envFail ⟨"POST", bodyMasterAgora⟩) = [500] ∧
    responseBody (handleWebhook envFail ⟨"POST", bodyMasterAgora⟩)
      = "Deploy failed: build failed\n" :=
  have h := C8_deploy_failed envFail ⟨"POST", bodyMasterAgora⟩
    ⟨"refs/heads/master", "agora"⟩ "/srv/agora/deploy.sh" "exit status 1" rfl rfl
    (by decide) (by decide) rfl rfl
  ⟨rfl, rfl, by decide, by decide, rfl, rfl, h.1, h.2.1.trans (by decide)⟩

/-- C9, as stated, fails: a rejected GET request emits no log entry, and a
successful deploy emits three. -/
theorem C9_log_entry_count_counterexample :
    logEntries (handleWebhook envOK ⟨"GET", bodyMasterAgora⟩) = [] ∧
    logEntries (handleWebhook envOK ⟨"POST", bodyMasterAgora⟩)
      = ["Received webhook: repo=agora, branch=master",
         "Executing deploy script: /srv/agora/deploy.sh",
         "Deploy successful for agora\nOutput: OK"] ∧
    ¬ (∀ (env : Env) (r : Request), (logEntries (handleWebhook env r)).length = 1) := by
  refine ⟨by decide, by decide, ?_⟩
  intro h
  exact absurd (h envOK ⟨"GET", bodyMasterAgora⟩) (by decide)

/-- C9, amended: every path through the handler writes exactly one status
code, one of 200, 400, 404, 405 and 500; the number of log entries is 0 when
the method is rejected, 1 on a decode failure and on an ignored branch, 2 on
an unknown repository and on a missing script, and 3 when the script is run
(failed or succeeded). -/
theorem C9_one_status_and_log_count (env : Env) (r : Request) :
    (∃ c, statusCodes (handleWebhook env r) = [c] ∧ c ∈ [200, 400, 404, 405, 500]) ∧
    (logEntries (handleWebhook env r)).length =
      (if r.Method ≠ "POST" then 0
       else match env.decode r.Body with
        | .error _ => 1
        | .ok p =>
          if TrimPrefix p.Ref "refs/heads/" ≠ "master" then 1
          else match deployScripts.lookup p.RepositoryName with
            | none => 2
            | some script => if IsNotExist (env.stat script) then 2 else 3) := by
  by_cases hm : r.Method = "POST"
  swap
  · rw [trace_method_rejected env r hm, if_pos hm]
    exact ⟨⟨405, rfl, by decide⟩, rfl⟩
  rw [if_neg (not_not.mpr hm)]
  cases hd : env.decode r.Body with
  | error e =>
    rw [trace_decode_failure env r e hm hd]
    exact ⟨⟨400, rfl, by decide⟩, rfl⟩
  | ok p =>
    by_cases hb : TrimPrefix p.Ref "refs/heads/" = "master"
    swap
    · rw [trace_branch_ignored env r p hm hd hb]
      simp only [if_pos hb]
      exact ⟨⟨200, rfl, by decide⟩, rfl⟩
    simp only [if_neg (not_not.mpr hb)]
    cases hl : deployScripts.lookup p.RepositoryName with
    | none =>
      rw [trace_unknown_repository env r p hm hd hb hl]
      exact ⟨⟨404, rfl, by decide⟩, rfl⟩
    | some script =>
      cases hs : IsNotExist (env.stat script) with
      | true =>
        rw [trace_script_missing env r p script hm hd hb hl hs]
        refine ⟨⟨500, rfl, by decide⟩, ?_⟩
        simp [hs, logEntries]
      | false =>
        cases he : (env.combinedOutput bashPath [script]).err with
        | some e =>
          rw [trace_deploy_failed env r p script e hm hd hb hl hs he]
          refine ⟨⟨500, rfl, by decide⟩, ?_⟩
          simp [hs, logEntries]
        | none =>
          rw [trace_deploy_succeeded env r p script hm hd hb hl hs he]
          refine ⟨⟨200, rfl, by decide⟩, ?_⟩
          simp [hs, logEntries]

/-- The commands run by the handler, in closed form. -/
theorem commands_handleWebhook (env : Env) (r : Request) :
    commands (handleWebhook env r) =
      (if r.Method ≠ "POST" then []
       else match env.decode r.Body with
        | .error _ => []
        | .ok p =>
          if TrimPrefix p.Ref "refs/heads/" ≠ "master" then []
          else match deployScripts.lookup p.RepositoryName with
            | none => []
            | some script =>
              if IsNotExist (env.stat script) then [] else [(bashPath, [script])]) := by
  by_cases hm : r.Method = "POST"
  swap
  · rw [trace_method_rejected env r hm, if_pos hm]
    rfl
  rw [if_neg (not_not.mpr hm)]
  cases hd : env.decode r.Body with
  | error e =>
    rw [trace_decode_failure env r e hm hd]
    rfl
  | ok p =>
    by_cases hb : TrimPrefix p.Ref "refs/heads/" = "master"
    swap
    · rw [trace_branch_ignored env r p hm hd hb]
      simp only [if_pos hb]
      rfl
    simp only [if_neg (not_not.mpr hb)]
    cases hl : deployScripts.lookup p.RepositoryName with
    | none =>
      rw [trace_unknown_repository env r p hm hd hb hl]
      rfl
    | some script =>
      cases hs : IsNotExist (env.stat script) with
      | true =>
        rw [trace_script_missing env r p script hm hd hb hl hs]
        simp [hs, commands]
      | false =>
        cases he : (env.combinedOutput bashPath [script]).err with
        | some e =>
          rw [trace_deploy_failed env r p script e hm hd hb hl hs he]
          simp [hs, commands]
        | none =>
          rw [trace_deploy_succeeded env r p script hm hd hb hl hs he]
          simp [hs, commands]

/-- C10: the handler runs a command if and only if the method is POST, the
body decodes, the ref is exactly "master" or exactly "refs/heads/master",
the repository name is a key of the registry, and the stat of the registered
path does not report not-exist. When it runs a command it runs exactly one:
the fixed interpreter with the registered path as its single argument, so
that every command line is one of three constants, in which neither the ref
nor the repository name of the payload occurs. The ref
"refs/heads/refs/heads/master" runs nothing; a stat error other than
not-exist still runs the script. -/
theorem C10_deploy_invoked_iff (env : Env) (r : Request) :
    (commands (handleWebhook env r) ≠ [] ↔
      r.Method = "POST" ∧
      ∃ p, env.decode r.Body = .ok p ∧
        (p.Ref = "master" ∨ p.Ref = "refs/heads/master") ∧
        ∃ script, deployScripts.lookup p.RepositoryName = some script ∧
          IsNotExist (env.stat script) = false) ∧
    (commands (handleWebhook env r) = [] ∨
      ∃ p script, env.decode r.Body = .ok p ∧
        deployScripts.lookup p.RepositoryName = some script ∧
        commands (handleWebhook env r)
          = [("/run/current-system/profile/bin/bash", [script])]) ∧
    (∀ c ∈ commands (handleWebhook env r),
      c ∈ [("/run/current-system/profile/bin/bash", ["/srv/0xhenrique-blog/deploy.sh"]),
           ("/run/current-system/profile/bin/bash", ["/srv/agora/deploy.sh"]),
           ("/run/current-system/profile/bin/bash", ["/srv/agora-backend/deploy.sh"])]) ∧
    (∀ p, env.decode r.Body = .ok p → ∀ c ∈ commands (handleWebhook env r),
      c.1 ≠ p.Ref ∧ c.1 ≠ p.RepositoryName ∧ p.Ref ∉ c.2 ∧ p.RepositoryName ∉ c.2) ∧
    commands (handleWebhook envOK ⟨"POST", bodyDoubleAgora⟩) = [] ∧
    commands (handleWebhook envStatDenied ⟨"POST", bodyMasterAgora⟩)
      = [("/run/current-system/profile/bin/bash", ["/srv/agora/deploy.sh"])] := by
  refine ⟨?_, ?_, ?_, ?_, by decide, by decide⟩
  · rw [commands_handleWebhook]
    by_cases hm : r.Method = "POST"
    swap
    · simp [hm]
    cases hd : env.decode r.Body with
    | error e => simp [hm]
    | ok p =>
      by_cases hb : TrimPrefix p.Ref "refs/heads/" = "master"
      swap
      · have hb2 := mt (TrimPrefix_eq_master_iff p.Ref).2 hb
        simp [hm, hb, hb2]
      have hb2 := (TrimPrefix_eq_master_iff p.Ref).1 hb
      cases hl : deployScripts.lookup p.RepositoryName with
      | none => simp [hm, hb, hl]
      | some script =>
        cases hs : IsNotExist (env.stat script) with
        | true => simp [hm, hb, hb2, hl, hs]
        | false => simp [hm, hb, hb2, hl, hs]
  · rw [commands_handleWebhook]
    by_cases hm : r.Method = "POST"
    swap
    · simp [hm]
    cases hd : env.decode r.Body with
    | error e => simp [hm]
    | ok p =>
      by_cases hb : TrimPrefix p.Ref "refs/heads/" = "master"
      swap
      · simp [hm, hb]
      cases hl : deployScripts.lookup p.RepositoryName with
      | none => simp [hm, hb, hl]
      | some script =>
        cases hs : IsNotExist (env.stat script) with
        | true => simp [hm, hb, hl, hs]
        | false =>
          right
          exact ⟨p, script, rfl, hl, by simp [hm, hb, hl, hs, bashPath]⟩
  · rw [commands_handleWebhook]
    by_cases hm : r.Method = "POST"
    swap
    · simp [hm]
    cases hd : env.decode r.Body with
    | error e => simp [hm]
    | ok p =>
      by_cases hb : TrimPrefix p.Ref "refs/heads/" = "master"
      swap
      · simp [hm, hb]
      cases hl : deployScripts.lookup p.RepositoryName with
      | none => simp [hm, hb, hl]
      | some script =>
        cases hs : IsNotExist (env.stat script) with
        | true => simp [hm, hb, hl, hs]
        | false =>
          have hv := (lookup_eq_some_iff p.RepositoryName script).1 hl
          rcases hv with ⟨-, h⟩ | ⟨-, h⟩ | ⟨-, h⟩ <;> subst h <;> simp [hm, hb, hl, hs, bashPath]
  · intro p hd c hc
    rw [commands_handleWebhook] at hc
    by_cases hm : r.Method = "POST"
    swap
    · simp [hm] at hc
    by_cases hb : TrimPrefix p.Ref "refs/heads/" = "master"
    swap
    · simp [hm, hd, hb] at hc
    cases hl : deployScripts.lookup p.RepositoryName with
    | none => simp [hm, hd, hb, hl] at hc
    | some script =>
      cases hs : IsNotExist (env.stat script) with
      | true => simp [hm, hd, hb, hl, hs] at hc
      | false =>
        simp only [hm, hd, hb, hl, hs] at hc
        have hc2 : c = (bashPath, [script]) := by simpa using hc
        subst hc2
        obtain ⟨ref, name⟩ := p
        have hr := (TrimPrefix_eq_master_iff ref).1 hb
        have hv := (lookup_eq_some_iff name script).1 hl
        rcases hr with hr | hr <;> rcases hv with ⟨hn, h⟩ | ⟨hn, h⟩ | ⟨hn, h⟩ <;>
          subst hr <;> subst hn <;> subst h <;> decide

end WebhookServer
